import Mathlib

/-
Verification of the tagged-block encoder of rmscene
(src/rmscene/tagged_block_writer.py).

The writer is embedded shallowly: the active data stream is a list of
byte values (each < 256), the writer state carries that list together
with the `_in_block` flag, and the context-manager regions
(`write_block`, `write_subblock`) become higher-order functions taking
the region body as a state transformer that may fail.  A failing
operation returns the state as left by the cleanup path together with
`some` error, mirroring an exception propagating out of a
`try/finally`.

The primitive stream operations (`DataStream` in
`tagged_block_common`, not part of the sources here) are modelled from
the spec, as noted on each definition.
-/

namespace RMScene

/-- Modelled from the spec: the closed set of wire-type markers
(`TagType` from `tagged_block_common`, which is not among the sources):
single-byte, 4-byte, 8-byte, length-prefixed (4-byte length) and
CRDT-ID values. -/
inductive TagType where
  | ID
  | Length4
  | Byte8
  | Byte4
  | Byte1
deriving DecidableEq, Repr

/-- Modelled from the spec: the numeric marker for each wire type, a
4-bit value packed below the field index in a tag. -/
def TagType.val : TagType → Nat
  | .ID => 15
  | .Length4 => 12
  | .Byte8 => 8
  | .Byte4 => 4
  | .Byte1 => 1

/-- The little-endian byte images of a 4-byte unsigned integer. -/
def uint32Bytes (n : Nat) : List Nat :=
  [n % 256, n / 2 ^ 8 % 256, n / 2 ^ 16 % 256, n / 2 ^ 24 % 256]

/-- Modelled from the spec: `DataStream.write_uint32` writes a 4-byte
little-endian unsigned integer; a value outside the unsigned 32-bit
range is rejected at the point of encoding (spec section 7) rather
than silently truncated. -/
def uint32LE (n : Nat) : Option (List Nat) :=
  if n < 2 ^ 32 then some (uint32Bytes n) else none

/-- Modelled from the spec: the unsigned 4-byte encoding applied to a
(possibly negative) integer argument; negative values have no unsigned
encoding and are rejected. -/
def uint32LEInt (v : Int) : Option (List Nat) :=
  if 0 ≤ v ∧ v < 2 ^ 32 then some (uint32Bytes v.toNat) else none

/-- Modelled from the spec: `DataStream.write_uint8` writes one byte;
out-of-range values are rejected at the point of encoding. -/
def uint8LE (n : Nat) : Option (List Nat) :=
  if n < 256 then some [n] else none

/-- Modelled from the spec: `DataStream.write_varuint`, the base-128
continuation-bit encoding of an unbounded unsigned integer. -/
def varuint (v : Nat) : List Nat :=
  if h : v < 128 then [v]
  else (v % 128 + 128) :: varuint (v / 128)
decreasing_by
  exact Nat.div_lt_self (by omega) (by omega)

/-- Modelled from the spec: `DataStream.write_tag` packs the field
index and the 4-bit wire-type marker into one prefix unit (index in
the high bits, type in the low 4 bits) and emits it with the varuint
encoding, so a tag is one byte or more. -/
def tagBytes (index : Nat) (t : TagType) : List Nat :=
  varuint (index * 16 + t.val)

/-- Modelled from the spec: `CrdtId` from `tagged_block_common` (not
among the sources).  The writer source reads fields `part1` and
`part2`; the spec calls them `author` (unsigned 8-bit) and `sequence`
(unbounded unsigned). -/
structure CrdtId where
  part1 : Nat
  part2 : Nat
deriving DecidableEq, Repr

/-- The errors a write can raise: the nesting violation
(`UnexpectedBlockError`), a failed `assert`, an encoding-range
rejection (`struct.error`), and arbitrary errors raised by caller code
running inside a region body. -/
inductive WriteError where
  | unexpectedBlock
  | assertionFailed
  | rangeError
  | callerError : Nat → WriteError
deriving DecidableEq, Repr

/-- The state of a `TaggedBlockWriter`: the contents of the currently
active data stream (`self.data`), and the `_in_block` flag. -/
structure TaggedBlockWriter where
  data : List Nat
  inBlock : Bool
deriving DecidableEq, Repr

/-- The outcome of a write operation: the resulting writer state and
`none` on success, or `some e` when the operation raised `e` (the
state is then the one left behind by the cleanup paths). -/
abbrev WResult := TaggedBlockWriter × Option WriteError

/-- Sequencing of write operations: a raised error propagates,
skipping the rest. -/
def wbind (r : WResult) (f : TaggedBlockWriter → WResult) : WResult :=
  match r with
  | (w, none) => f w
  | (w, some e) => (w, some e)

/-- Append an encoded field to the active stream; a `none` encoding is
an encoding-range rejection, which raises before any byte of the field
is written. -/
def emit (bs : Option (List Nat)) (w : TaggedBlockWriter) : WResult :=
  match bs with
  | some l => ({ w with data := w.data ++ l }, none)
  | none => (w, some .rangeError)

/-- A region body as seen by `write_block` and `write_subblock`: any
transformation of the writer state that may raise. -/
abbrev Body := TaggedBlockWriter → WResult

/-- `TaggedBlockWriter.write_id`: tag as ID type, then the author byte,
then the sequence as a varuint. -/
def write_id (index : Nat) (value : CrdtId) (w : TaggedBlockWriter) : WResult :=
  wbind (emit (some (tagBytes index .ID)) w) fun w =>
  wbind (emit (uint8LE value.part1) w) fun w =>
  emit (some (varuint value.part2)) w

/-- `TaggedBlockWriter.write_bool`: tag as single-byte type, then one
byte 0 or 1. -/
def write_bool (index : Nat) (value : Bool) (w : TaggedBlockWriter) : WResult :=
  wbind (emit (some (tagBytes index .Byte1)) w) fun w =>
  emit (some [if value then 1 else 0]) w

/-- `TaggedBlockWriter.write_byte`: tag as single-byte type, then the
byte. -/
def write_byte (index : Nat) (value : Nat) (w : TaggedBlockWriter) : WResult :=
  wbind (emit (some (tagBytes index .Byte1)) w) fun w =>
  emit (uint8LE value) w

/-- `TaggedBlockWriter.write_int`: tag as 4-byte type, then the 4-byte
unsigned little-endian encoding of the integer. -/
def write_int (index : Nat) (value : Int) (w : TaggedBlockWriter) : WResult :=
  wbind (emit (some (tagBytes index .Byte4)) w) fun w =>
  emit (uint32LEInt value) w

/-- `TaggedBlockWriter.write_block`: raises the nesting violation if a
block is already open; otherwise runs the body against a fresh shadow
buffer with `_in_block` set, restores the previous stream on every
exit path (the `finally`), and on normal exit clears `_in_block` and
emits length, reserved zero byte, versions, block type and the
buffered payload. -/
def write_block (block_type min_version current_version : Nat) (body : Body)
    (w : TaggedBlockWriter) : WResult :=
  if w.inBlock then (w, some .unexpectedBlock)
  else
    let r := body { data := [], inBlock := true }
    let w2 : TaggedBlockWriter := { data := w.data, inBlock := r.1.inBlock }
    match r.2 with
    | some e => (w2, some e)
    | none =>
      if r.1.inBlock then
        wbind (emit (uint32LE r.1.data.length) { w2 with inBlock := false }) fun x =>
        wbind (emit (uint8LE 0) x) fun x =>
        wbind (emit (uint8LE min_version) x) fun x =>
        wbind (emit (uint8LE current_version) x) fun x =>
        wbind (emit (uint8LE block_type) x) fun x =>
        emit (some r.1.data) x
      else (w2, some .assertionFailed)

/-- `TaggedBlockWriter.write_subblock`: runs the body against a fresh
shadow buffer, restores the previous stream on every exit path (the
`finally`), and on normal exit emits the Length4 tag, the 4-byte
length of the buffered content and the buffered bytes into the
restored stream. -/
def write_subblock (index : Nat) (body : Body) (w : TaggedBlockWriter) : WResult :=
  let r := body { data := [], inBlock := w.inBlock }
  let w2 : TaggedBlockWriter := { data := w.data, inBlock := r.1.inBlock }
  match r.2 with
  | some e => (w2, some e)
  | none =>
    wbind (emit (some (tagBytes index .Length4)) w2) fun x =>
    wbind (emit (uint32LE r.1.data.length) x) fun x =>
    emit (some r.1.data) x

/-- C6: `write_id(index, value)` emits exactly the tag for
(index, ID), then the author component as one unsigned byte, then the
sequence component as a base-128 varuint, in that order and nothing
else; the stream state is otherwise unchanged and no error is
raised. -/
theorem write_id_layout (index : Nat) (v : CrdtId) (w : TaggedBlockWriter)
    (h : v.part1 < 256) :
    write_id index v w =
      ({ w with data := w.data ++ tagBytes index .ID ++ [v.part1] ++ varuint v.part2 },
       none) := by
  simp [write_id, wbind, emit, uint8LE, h, List.append_assoc]

/-- C6 witness: `write_id 1 ⟨3, 5⟩` on an empty idle writer emits the
ID tag, the byte 3 and the varuint of 5. -/
theorem write_id_layout_witness :
    write_id 1 ⟨3, 5⟩ ⟨[], false⟩ =
      ({ data := ([] : List Nat) ++ tagBytes 1 .ID ++ [3] ++ varuint 5,
         inBlock := false }, none) :=
  write_id_layout 1 ⟨3, 5⟩ ⟨[], false⟩ (by decide)

/-- C7: `write_int(index, value)` emits the tag for (index, Byte4)
followed by the 4-byte unsigned little-endian encoding of the integer;
the encoding is unsigned, so every value of the unsigned 32-bit range
is accepted (including those above the signed range). -/
theorem write_int_unsigned (index : Nat) (v : Int) (w : TaggedBlockWriter)
    (h0 : 0 ≤ v) (h32 : v < 2 ^ 32) :
    write_int index v w =
      ({ w with data := w.data ++ tagBytes index .Byte4 ++ uint32Bytes v.toNat },
       none) := by
  have h32n : v < 4294967296 := by norm_num at h32; exact h32
  simp [write_int, wbind, emit, uint32LEInt, h0, h32n, List.append_assoc]

/-- C7 witness: `write_int 3 (2 ^ 31 + 5)` succeeds, a value no signed
4-byte encoding could carry, and emits the unsigned little-endian
bytes. -/
theorem write_int_unsigned_witness :
    write_int 3 (2 ^ 31 + 5) ⟨[], false⟩ =
      ({ data := ([] : List Nat) ++ tagBytes 3 .Byte4 ++ uint32Bytes (2 ^ 31 + 5 : Int).toNat,
         inBlock := false }, none) :=
  write_int_unsigned 3 (2 ^ 31 + 5) ⟨[], false⟩ (by decide) (by decide)

/-- Helper: the normal-exit behaviour of `write_subblock`, shared by
several results below. -/
theorem subblock_spec (index : Nat) (body : Body) (w w1 : TaggedBlockWriter)
    (hbody : body { data := [], inBlock := w.inBlock } = (w1, none))
    (hlen : w1.data.length < 2 ^ 32) :
    write_subblock index body w =
      ({ data := w.data ++ tagBytes index .Length4 ++ uint32Bytes w1.data.length ++ w1.data,
         inBlock := w1.inBlock }, none) := by
  have hlenn : w1.data.length < 4294967296 := by norm_num at hlen; exact hlen
  simp [write_subblock, hbody, wbind, emit, uint32LE, hlenn, List.append_assoc]

/-- Helper: `write_block` only consults its body at the fresh shadow
state, so bodies agreeing there are interchangeable. -/
theorem write_block_body_congr (bt mv cv : Nat) (b1 b2 : Body) (w : TaggedBlockWriter)
    (h : b1 { data := [], inBlock := true } = b2 { data := [], inBlock := true }) :
    write_block bt mv cv b1 w = write_block bt mv cv b2 w := by
  unfold write_block
  rw [h]

/-- C1: when a top-level block opened with
`write_block(block_type, min_version, current_version)` closes
normally after its body produced payload bytes, the enclosing sink
receives, in this exact order: the 4-byte length equal to the exact
byte count of the buffered payload, one reserved zero byte,
`min_version`, `current_version`, `block_type`, then the buffered
payload bytes; the writer returns to the idle state. -/
theorem write_block_close_layout
    (bt mv cv : Nat) (body : Body) (w w1 : TaggedBlockWriter)
    (hidle : w.inBlock = false)
    (hbody : body { data := [], inBlock := true } = (w1, none))
    (hin : w1.inBlock = true)
    (hlen : w1.data.length < 2 ^ 32)
    (hmv : mv < 256) (hcv : cv < 256) (hbt : bt < 256) :
    write_block bt mv cv body w =
      ({ data := w.data ++ uint32Bytes w1.data.length ++ [0, mv, cv, bt] ++ w1.data,
         inBlock := false }, none) := by
  have hlenn : w1.data.length < 4294967296 := by norm_num at hlen; exact hlen
  simp [write_block, hidle, hbody, hin, wbind, emit, uint32LE, uint8LE,
    hlenn, hmv, hcv, hbt, uint32Bytes, List.append_assoc]

/-- C1 witness: a block of type 7, versions 1 and 2, whose body writes
the two bytes 9, 9, emits length 2, the header bytes and the
payload. -/
theorem write_block_close_layout_witness :
    write_block 7 1 2 (fun x => emit (some [9, 9]) x) ⟨[], false⟩ =
      ({ data := ([] : List Nat) ++ uint32Bytes 2 ++ [0, 1, 2, 7] ++ [9, 9],
         inBlock := false }, none) :=
  write_block_close_layout 7 1 2 _ ⟨[], false⟩ ⟨[9, 9], true⟩ rfl rfl rfl
    (by decide) (by decide) (by decide) (by decide)

/-- C2: when a subblock opened with `write_subblock(index)` closes
normally after its body produced content bytes, the write target that
was active before the subblock opened receives the tag for
(index, Length4), then the 4-byte unsigned length equal to the exact
byte count of the buffered content, then those buffered bytes. -/
theorem write_subblock_close_layout
    (index : Nat) (body : Body) (w w1 : TaggedBlockWriter)
    (hbody : body { data := [], inBlock := w.inBlock } = (w1, none))
    (hlen : w1.data.length < 2 ^ 32) :
    write_subblock index body w =
      ({ data := w.data ++ tagBytes index .Length4 ++ uint32Bytes w1.data.length ++ w1.data,
         inBlock := w1.inBlock }, none) := by
  have hlenn : w1.data.length < 4294967296 := by norm_num at hlen; exact hlen
  simp [write_subblock, hbody, wbind, emit, uint32LE, hlenn, List.append_assoc]

/-- C2 witness: a subblock with index 2 whose body writes the three
bytes 4, 5, 6 emits the Length4 tag, length 3, then those bytes. -/
theorem write_subblock_close_layout_witness :
    write_subblock 2 (fun x => emit (some [4, 5, 6]) x) ⟨[1], false⟩ =
      ({ data := [1] ++ tagBytes 2 .Length4 ++ uint32Bytes 3 ++ [4, 5, 6],
         inBlock := false }, none) :=
  write_subblock_close_layout 2 _ ⟨[1], false⟩ ⟨[4, 5, 6], false⟩ rfl (by decide)

/-- C8: `write_subblock` has no nesting precondition: with the writer
idle (no top-level block open) it still succeeds without a nesting
error, and the tag, length and content go directly to the underlying
output stream. -/
theorem write_subblock_idle_ok
    (index : Nat) (body : Body) (w w1 : TaggedBlockWriter)
    (hidle : w.inBlock = false)
    (hbody : body { data := [], inBlock := false } = (w1, none))
    (hlen : w1.data.length < 2 ^ 32) :
    write_subblock index body w =
      ({ data := w.data ++ tagBytes index .Length4 ++ uint32Bytes w1.data.length ++ w1.data,
         inBlock := w1.inBlock }, none) := by
  have hlenn : w1.data.length < 4294967296 := by norm_num at hlen; exact hlen
  simp [write_subblock, hidle, hbody, wbind, emit, uint32LE, hlenn, List.append_assoc]

/-- C8 witness: a subblock written on an idle writer whose stream
already holds the byte 8 appends its header and content there with no
error. -/
theorem write_subblock_idle_ok_witness :
    write_subblock 1 (fun x => emit (some [7]) x) ⟨[8], false⟩ =
      ({ data := [8] ++ tagBytes 1 .Length4 ++ uint32Bytes 1 ++ [7],
         inBlock := false }, none) :=
  write_subblock_idle_ok 1 _ ⟨[8], false⟩ ⟨[7], false⟩ rfl rfl (by decide)

/-- C3: opening subblock A, writing `pre`, opening subblock B whose
body writes `payB`, closing B, writing `post`, and closing A produces
the byte layout headerA, (pre, headerB, payB, post): B's complete
header and payload sit contiguously inside A's payload at the point
where B was opened, and no byte written while B was active reaches A's
buffer or the enclosing sink outside that region. -/
theorem subblock_nesting_layout
    (iA iB : Nat) (pre payB post : List Nat) (w : TaggedBlockWriter)
    (hB : payB.length < 2 ^ 32)
    (hA : (pre ++ tagBytes iB .Length4 ++ uint32Bytes payB.length ++ payB ++ post).length
          < 2 ^ 32) :
    write_subblock iA
      (fun x =>
        wbind (emit (some pre) x) fun x =>
        wbind (write_subblock iB (fun y => emit (some payB) y) x) fun x =>
        emit (some post) x) w =
      ({ data := w.data ++ tagBytes iA .Length4
           ++ uint32Bytes (pre ++ tagBytes iB .Length4 ++ uint32Bytes payB.length
                ++ payB ++ post).length
           ++ (pre ++ tagBytes iB .Length4 ++ uint32Bytes payB.length ++ payB ++ post),
         inBlock := w.inBlock }, none) := by
  have hinner :
      write_subblock iB (fun y => emit (some payB) y) ⟨pre, w.inBlock⟩ =
        (⟨pre ++ tagBytes iB .Length4 ++ uint32Bytes payB.length ++ payB,
          w.inBlock⟩, none) := by
    have h := subblock_spec iB (fun y => emit (some payB) y)
      ⟨pre, w.inBlock⟩ ⟨payB, w.inBlock⟩ (by simp [emit]) hB
    simpa using h
  have hbody :
      (fun x =>
        wbind (emit (some pre) x) fun x =>
        wbind (write_subblock iB (fun y => emit (some payB) y) x) fun x =>
        emit (some post) x)
        ({ data := [], inBlock := w.inBlock } : TaggedBlockWriter) =
      (⟨pre ++ tagBytes iB .Length4 ++ uint32Bytes payB.length ++ payB ++ post,
        w.inBlock⟩, none) := by
    show wbind (emit (some pre) ({ data := [], inBlock := w.inBlock } : TaggedBlockWriter))
      (fun x =>
        wbind (write_subblock iB (fun y => emit (some payB) y) x) fun x =>
        emit (some post) x) = _
    rw [show emit (some pre) ({ data := [], inBlock := w.inBlock } : TaggedBlockWriter) =
      ((⟨pre, w.inBlock⟩ : TaggedBlockWriter), none) from by simp [emit]]
    simp only [wbind]
    rw [hinner]
    simp only [wbind]
    simp [emit, List.append_assoc]
  have h := subblock_spec iA
    (fun x =>
      wbind (emit (some pre) x) fun x =>
      wbind (write_subblock iB (fun y => emit (some payB) y) x) fun x =>
      emit (some post) x) w
    ⟨pre ++ tagBytes iB .Length4 ++ uint32Bytes payB.length ++ payB ++ post, w.inBlock⟩
    hbody hA
  simpa using h

/-- C3 witness: the layout for iA = 5, iB = 6, pre = [1],
payB = [2, 3], post = [4] on a writer inside an open block. -/
theorem subblock_nesting_layout_witness :
    write_subblock 5
      (fun x =>
        wbind (emit (some [1]) x) fun x =>
        wbind (write_subblock 6 (fun y => emit (some [2, 3]) y) x) fun x =>
        emit (some [4]) x) ⟨[], true⟩ =
      ({ data := ([] : List Nat) ++ tagBytes 5 .Length4
           ++ uint32Bytes ([1] ++ tagBytes 6 .Length4 ++ uint32Bytes ([2, 3] : List Nat).length
                ++ [2, 3] ++ [4]).length
           ++ ([1] ++ tagBytes 6 .Length4 ++ uint32Bytes ([2, 3] : List Nat).length
                ++ [2, 3] ++ [4]),
         inBlock := true }, none) :=
  subblock_nesting_layout 5 6 [1] [2, 3] [4] ⟨[], true⟩ (by decide)
    (by
      have ht : tagBytes 6 .Length4 = [108] := by
        simp [tagBytes, TagType.val, varuint]
      simp [ht, uint32Bytes])

/-- C4: `write_block` invoked while already in a block raises
`UnexpectedBlockError` at once, leaving the state untouched; and an
open block whose body attempts such a nested `write_block`, swallows
the error and continues, behaves exactly as if the attempt had not
been made, so the first block still closes normally with its usual
header and payload. -/
theorem write_block_illegal_nesting
    (bt mv cv bt2 mv2 cv2 : Nat) (inner rest : Body) (w v : TaggedBlockWriter)
    (hv : v.inBlock = true) :
    write_block bt2 mv2 cv2 inner v = (v, some .unexpectedBlock) ∧
    write_block bt mv cv (fun x => rest (write_block bt2 mv2 cv2 inner x).1) w =
      write_block bt mv cv rest w := by
  refine ⟨by simp [write_block, hv], ?_⟩
  exact write_block_body_congr bt mv cv _ rest w (by simp [write_block])

/-- C4 witness: a nested open on an in-block state fails with the
nesting error and leaves the state unchanged, and an outer block whose
body attempts it behaves as the outer block alone. -/
theorem write_block_illegal_nesting_witness :
    write_block 3 4 5 (fun x => emit (some [1]) x) ⟨[], true⟩ =
      (⟨[], true⟩, some .unexpectedBlock) ∧
    write_block 7 1 2
        (fun x => (fun y => emit (some [9]) y)
          (write_block 3 4 5 (fun z => emit (some [1]) z) x).1) ⟨[], false⟩ =
      write_block 7 1 2 (fun y => emit (some [9]) y) ⟨[], false⟩ :=
  write_block_illegal_nesting 7 1 2 3 4 5 _ _ ⟨[], false⟩ ⟨[], true⟩ rfl

/-- C5: for both `write_block` and `write_subblock`, when the region
body raises, the error propagates and the active write target is
restored to the enclosing stream that was active before the region
opened. -/
theorem region_error_restores_target
    (bt mv cv index : Nat) (body body2 : Body) (w u w1 w2 : TaggedBlockWriter)
    (e e2 : WriteError)
    (hidle : w.inBlock = false)
    (hb : body { data := [], inBlock := true } = (w1, some e))
    (hb2 : body2 { data := [], inBlock := u.inBlock } = (w2, some e2)) :
    write_block bt mv cv body w = ({ data := w.data, inBlock := w1.inBlock }, some e) ∧
    write_subblock index body2 u = ({ data := u.data, inBlock := w2.inBlock }, some e2) := by
  constructor
  · simp [write_block, hidle, hb]
  · simp [write_subblock, hb2]

/-- C5 witness: failing bodies inside a block and a subblock leave the
enclosing streams [5] and [6] as the active targets. -/
theorem region_error_restores_target_witness :
    write_block 7 1 2 (fun x => ({ x with data := [1] }, some (.callerError 0)))
        ⟨[5], false⟩ =
      ({ data := [5], inBlock := true }, some (.callerError 0)) ∧
    write_subblock 3 (fun x => ({ x with data := [2] }, some (.callerError 1)))
        ⟨[6], true⟩ =
      ({ data := [6], inBlock := true }, some (.callerError 1)) :=
  region_error_restores_target 7 1 2 3 _ _ ⟨[5], false⟩ ⟨[6], true⟩
    ⟨[1], true⟩ ⟨[2], true⟩ (.callerError 0) (.callerError 1) rfl rfl rfl

/-- C9: when the body of `write_block` raises (and, as every API call
does, leaves `_in_block` set), the flag stays set on the error path,
so every later `write_block` on that writer raises the nesting
violation: the writer is not reusable for a new top-level block. -/
theorem failed_block_leaves_in_block
    (bt mv cv bt2 mv2 cv2 : Nat) (body body2 : Body) (w w1 : TaggedBlockWriter)
    (e : WriteError)
    (hidle : w.inBlock = false)
    (hb : body { data := [], inBlock := true } = (w1, some e))
    (hin : w1.inBlock = true) :
    (write_block bt mv cv body w).1.inBlock = true ∧
    write_block bt2 mv2 cv2 body2 (write_block bt mv cv body w).1 =
      ((write_block bt mv cv body w).1, some .unexpectedBlock) := by
  have h1 : write_block bt mv cv body w =
      ({ data := w.data, inBlock := w1.inBlock }, some e) := by
    simp [write_block, hidle, hb]
  rw [h1]
  exact ⟨hin, by simp [write_block, hin]⟩

/-- C9 witness: after a failed block, the flag is set and a fresh
`write_block` raises the nesting violation. -/
theorem failed_block_leaves_in_block_witness :
    (write_block 7 1 2 (fun x => (x, some (.callerError 2))) ⟨[], false⟩).1.inBlock
      = true ∧
    write_block 8 0 1 (fun x => emit (some [1]) x)
        (write_block 7 1 2 (fun x => (x, some (.callerError 2))) ⟨[], false⟩).1 =
      ((write_block 7 1 2 (fun x => (x, some (.callerError 2))) ⟨[], false⟩).1,
       some .unexpectedBlock) :=
  failed_block_leaves_in_block 7 1 2 8 0 1 _ _ ⟨[], false⟩ ⟨[], true⟩
    (.callerError 2) rfl rfl rfl

/-- C10: both `write_block` and `write_subblock` are atomic towards
the enclosing target on failure: when the body raises, the error
propagates and not a single byte (no header, length or payload)
reaches the enclosing stream, which is byte-for-byte unchanged. -/
theorem region_error_atomic
    (bt mv cv index : Nat) (body body2 : Body) (w u w1 w2 : TaggedBlockWriter)
    (e e2 : WriteError)
    (hidle : w.inBlock = false)
    (hb : body { data := [], inBlock := true } = (w1, some e))
    (hb2 : body2 { data := [], inBlock := u.inBlock } = (w2, some e2)) :
    (write_block bt mv cv body w).1.data = w.data ∧
    (write_block bt mv cv body w).2 = some e ∧
    (write_subblock index body2 u).1.data = u.data ∧
    (write_subblock index body2 u).2 = some e2 := by
  have h1 : write_block bt mv cv body w =
      ({ data := w.data, inBlock := w1.inBlock }, some e) := by
    simp [write_block, hidle, hb]
  have h2 : write_subblock index body2 u =
      ({ data := u.data, inBlock := w2.inBlock }, some e2) := by
    simp [write_subblock, hb2]
  rw [h1, h2]
  exact ⟨rfl, rfl, rfl, rfl⟩

/-- C10 witness: failing bodies that do write bytes into their shadow
buffers leave the enclosing streams [5] and [6] byte-for-byte
unchanged. -/
theorem region_error_atomic_witness :
    (write_block 7 1 2 (fun x => ({ x with data := [1, 2] }, some (.callerError 3)))
        ⟨[5], false⟩).1.data = [5] ∧
    (write_block 7 1 2 (fun x => ({ x with data := [1, 2] }, some (.callerError 3)))
        ⟨[5], false⟩).2 = some (.callerError 3) ∧
    (write_subblock 4 (fun x => ({ x with data := [3] }, some (.callerError 4)))
        ⟨[6], true⟩).1.data = [6] ∧
    (write_subblock 4 (fun x => ({ x with data := [3] }, some (.callerError 4)))
        ⟨[6], true⟩).2 = some (.callerError 4) :=
  region_error_atomic 7 1 2 4 _ _ ⟨[5], false⟩ ⟨[6], true⟩
    ⟨[1, 2], true⟩ ⟨[3], true⟩ (.callerError 3) (.callerError 4) rfl rfl rfl

end RMScene
